import Mathlib

/-!
Verification development for the remootio-api-client-node repository.

The development shallowly embeds the two source files that carry the logic
the specification describes:

* `src/apicrypto.js` — `remootioApiDecryptEncrypedFrame` and
  `remootioApiConstructEncrypedFrame`.  The CryptoJS library primitives
  (AES-256-CBC, HMAC-SHA256, base64/hex/latin1 codecs, `JSON` methods) are
  external library code, so they are modelled as the fields of a
  `CryptoModel` structure; the two embedded functions are translated line
  by line over an arbitrary such model, and theorems that need algebraic
  facts about the primitives (e.g. that AES decryption inverts AES
  encryption under the same key and IV) take them as hypotheses.

* `src/src/index.ts` — the `RemootioDevice` session state machine.  Its
  mutable fields become a `DeviceState` record, and each handler or method
  becomes a function from a state to a `StepResult` (new state, emitted
  events, sent frames, `console.warn` diagnostics).  The websocket is
  modelled by an `Option Bool` field: `none` is an undefined
  `websocketClient`, `some true` a client whose `readyState` is `OPEN`,
  `some false` a defined client that is not open.  Timer handles become
  booleans recording whether the handle is set.
-/

namespace Remootio

/-- JavaScript string values carried by an `ENCRYPTED` frame's `data`
field: `payload` and `iv` are base64 strings; `Option` models a missing
(`undefined`) field.  Mirrors the object shape checked at the top of
`remootioApiDecryptEncrypedFrame` in `src/apicrypto.js`. -/
structure FrameData where
  payload : Option String
  iv : Option String
  deriving DecidableEq, Repr

/-- A wire frame: a `type` discriminator and, for `ENCRYPTED` frames, the
`data` object and the base64 `mac` string.  Plaintext frames (`PING`,
`PONG`, `HELLO`, ...) have `data = none` and `mac = none`. -/
structure Frame where
  type : String
  data : Option FrameData
  mac : Option String
  deriving DecidableEq, Repr

/-- JavaScript falsiness of a possibly-missing string value: `undefined`
(or `null`) and the empty string are falsy.  This is what the `!frame.mac`
style guards of `src/apicrypto.js` test on string-valued fields. -/
def jsStrFalsy : Option String → Bool
  | none => true
  | some s => s == ""

/-- Model of the CryptoJS primitives and the `JSON` methods used by
`src/apicrypto.js`.  `B` is the type of CryptoJS word arrays (byte
strings); `P` is the type of the JavaScript values produced by
`JSON.parse` on a decrypted payload.  Each field corresponds to one
library function used by the source:

* `hexParse` — `CryptoJS.enc.Hex.parse`
* `base64Parse` — `CryptoJS.enc.Base64.parse`
* `base64Stringify` — `CryptoJS.enc.Base64.stringify`
* `latin1Parse` — `CryptoJS.enc.Latin1.parse`
* `latin1Stringify` — `CryptoJS.enc.Latin1.stringify`
* `hmacSHA256` — `CryptoJS.HmacSHA256 (message, key)`
* `aesEncryptCBC` / `aesDecryptCBC` — `CryptoJS.AES.encrypt/decrypt`
  in CBC mode with PKCS#7 padding, as `(input, key, iv)`
* `jsonParse` — `JSON.parse`, `none` when it throws
* `jsonStringifyData` — `JSON.stringify` of the two-field object
  `{iv: ..., payload: ...}` in that key order (the order is part of the
  wire contract, see the comment above `toHMACObj` in the source). -/
structure CryptoModel (B P : Type) where
  hexParse : String → B
  base64Parse : String → B
  base64Stringify : B → String
  latin1Parse : String → B
  latin1Stringify : B → String
  hmacSHA256 : String → B → B
  aesEncryptCBC : B → B → B → B
  aesDecryptCBC : B → B → B → B
  jsonParse : String → Option P
  jsonStringifyData : String → String → String

/-- Embedding of `remootioApiDecryptEncrypedFrame` from
`src/apicrypto.js`.  The input frame is `Option Frame` so that a
`null`/`undefined` argument is representable.  Following the source: the
guard rejects a missing frame, a non-`ENCRYPTED` type, or a falsy
`data`, `mac`, `data.payload` or `data.iv`; the AES key is the hex-parsed
`ApiSecretKey` when `ApiSessionKey` is undefined and the base64-parsed
`ApiSessionKey` otherwise; an HMAC-SHA256 over `JSON.stringify(frame.data)`
is compared with `frame.mac`; the payload is AES-CBC decrypted,
latin1-decoded and `JSON.parse`d; the parse result is returned when the
MAC matched, and `undefined` (here `none`) otherwise. -/
def remootioApiDecryptEncrypedFrame {B P : Type} (C : CryptoModel B P)
    (frame : Option Frame) (ApiSecretKey ApiAuthKey : String)
    (ApiSessionKey : Option String) : Option P :=
  match frame with
  | none => none
  | some f =>
    if f.type ≠ "ENCRYPTED" ∨ f.data = none ∨ jsStrFalsy f.mac
        ∨ jsStrFalsy (f.data.bind FrameData.payload)
        ∨ jsStrFalsy (f.data.bind FrameData.iv) then
      none
    else
      match f.data, f.mac with
      | some d, some m =>
        match d.payload, d.iv with
        | some pl, some iv =>
          let CurrentlyUsedSecretKeyWordArray : B :=
            match ApiSessionKey with
            | none => C.hexParse ApiSecretKey
            | some sk => C.base64Parse sk
          let ApiAuthKeyWordArray := C.hexParse ApiAuthKey
          let mac := C.hmacSHA256 (C.jsonStringifyData iv pl) ApiAuthKeyWordArray
          let base64mac := C.base64Stringify mac
          let macMatches : Bool := base64mac == m
          let payloadWordArray := C.base64Parse pl
          let ivWordArray := C.base64Parse iv
          let decryptedPayloadWordArray :=
            C.aesDecryptCBC payloadWordArray CurrentlyUsedSecretKeyWordArray ivWordArray
          let decryptedPayload := C.latin1Stringify decryptedPayloadWordArray
          let decryptedPayloadJSON := C.jsonParse decryptedPayload
          if macMatches then decryptedPayloadJSON else none
        | _, _ => none
      | _, _ => none

/-- Embedding of `remootioApiConstructEncrypedFrame` from
`src/apicrypto.js`.  `ivRandom` stands for the fresh random IV produced by
`CryptoJS.lib.WordArray.random(16)` — randomness is external, so the IV is
an explicit argument.  With an undefined session key the function returns
`undefined` (here `none`); otherwise it AES-CBC encrypts the latin1-parsed
payload string under the base64-parsed session key, builds the
`{iv, payload}` data object (both base64), MACs its JSON serialization
with HMAC-SHA256 under the hex-parsed auth key, and assembles the
`ENCRYPTED` frame.  `ApiSecretKey` is accepted but unused, exactly as in
the source. -/
def remootioApiConstructEncrypedFrame {B P : Type} (C : CryptoModel B P)
    (unencryptedPayload : String) (ApiSecretKey ApiAuthKey : String)
    (ApiSessionKey : Option String) (ivRandom : B) : Option Frame :=
  match ApiSessionKey with
  | none => none
  | some sk =>
    let CurrentlyUsedSecretKeyWordArray := C.base64Parse sk
    let ApiAuthKeyWordArray := C.hexParse ApiAuthKey
    let ivWordArray := ivRandom
    let unencryptedPayloadWordArray := C.latin1Parse unencryptedPayload
    let encryptedPayloadWordArray :=
      C.aesEncryptCBC unencryptedPayloadWordArray CurrentlyUsedSecretKeyWordArray ivWordArray
    let ivBase64 := C.base64Stringify ivWordArray
    let payloadBase64 := C.base64Stringify encryptedPayloadWordArray
    let toHMAC := C.jsonStringifyData ivBase64 payloadBase64
    let mac := C.hmacSHA256 toHMAC ApiAuthKeyWordArray
    let base64mac := C.base64Stringify mac
    some { type := "ENCRYPTED"
           data := some { payload := some payloadBase64, iv := some ivBase64 }
           mac := some base64mac }

/-- The `challenge` object of a decrypted payload
(`{challenge:{sessionKey, initialActionId}}`), as read by the message
handler in `src/src/index.ts`. -/
structure ChallengePayload where
  sessionKey : String
  initialActionId : Nat
  deriving DecidableEq, Repr

/-- The `response` object of a decrypted payload.  The message handler in
`src/src/index.ts` reads only `response.type` and `response.id` (the other
fields — success flag, sensor state, timestamp, relay flag, error code —
are passed through to the consumer unread, so they are not modelled).
`id` is `Option` because the handler explicitly guards on
`response.id != undefined`. -/
structure ResponsePayload where
  type : String
  id : Option Nat
  deriving DecidableEq, Repr

/-- A decrypted `ENCRYPTED`-frame payload as inspected by the message
handler: the handler tests `'challenge' in decryptedPayload` and
`'response' in decryptedPayload`, modelled by the two `Option` fields. -/
structure DecryptedPayload where
  challenge : Option ChallengePayload
  response : Option ResponsePayload
  deriving DecidableEq, Repr

/-- The unencrypted payload of an outgoing action
(`{action:{type, id}}`), as built by `sendQuery`, `sendTrigger`,
`sendTriggerSecondary`, `sendOpen`, `sendClose` and `sendRestart` in
`src/src/index.ts`. -/
structure RemootioAction where
  type : String
  id : Nat
  deriving DecidableEq, Repr

/-- The events a `RemootioDevice` emits (`this.emit(...)` in
`src/src/index.ts`).  Event arguments are not needed by the statements
below, so only the tags are recorded. -/
inductive Event where
  | connecting
  | connected
  | authenticated
  | disconnect
  | error
  | incomingmessage
  | outgoingmessage
  deriving DecidableEq, Repr

/-- A message handed to `websocketClient.send`: either a plaintext frame
(recorded by its `type` tag: `AUTH`, `HELLO`, `PING`) or an encrypted
frame together with the unencrypted action payload it carries. -/
inductive SentItem where
  | plain (frameType : String)
  | encrypted (frame : Option Frame) (unencryptedPayload : RemootioAction)
  deriving DecidableEq, Repr

/-- The mutable fields of a `RemootioDevice` instance
(`src/src/index.ts`).  `websocket` models `websocketClient`: `none` when
the field is `undefined`, `some true` when it is defined with
`readyState == OPEN`, `some false` when it is defined but not open.  The
two timer fields record whether the corresponding handle
(`sendPingMessageIntervalHandle`, `pingReplyTimeoutHandle`) is set. -/
structure DeviceState where
  apiSecretKey : String
  apiAuthKey : String
  apiSessionKey : Option String
  lastActionId : Option Nat
  autoReconnect : Bool
  sendPingMessageIntervalHandle : Bool
  pingReplyTimeoutHandle : Bool
  waitingForAuthenticationQueryActionResponse : Option Bool
  websocket : Option Bool
  deriving DecidableEq, Repr

/-- Result of running one handler or method of `RemootioDevice`: the new
field values, the events emitted (in order), the messages passed to
`websocketClient.send` (in order), and the `console.warn` diagnostics. -/
structure StepResult where
  state : DeviceState
  events : List Event
  sent : List SentItem
  warnings : List String
  deriving DecidableEq, Repr

/-- Environment a `RemootioDevice` runs against: the crypto primitives
(with decrypted payloads read back as `DecryptedPayload` values),
`JSON.stringify` on outgoing action objects, and the random IV the next
encryption will draw. -/
structure DeviceEnv (B : Type) where
  crypto : CryptoModel B DecryptedPayload
  jsonStringifyAction : RemootioAction → String
  ivRandom : B

/-- Field values established by the `RemootioDevice` constructor
(session data undefined, auto-reconnect off, no timers, no websocket,
`waitingForAuthenticationQueryActionResponse = false`). -/
def initialDeviceState (ApiSecretKey ApiAuthKey : String) : DeviceState :=
  { apiSecretKey := ApiSecretKey
    apiAuthKey := ApiAuthKey
    apiSessionKey := none
    lastActionId := none
    autoReconnect := false
    sendPingMessageIntervalHandle := false
    pingReplyTimeoutHandle := false
    waitingForAuthenticationQueryActionResponse := some false
    websocket := none }

/-- Embedding of `connect(autoReconnect)` up to the point where the
websocket handlers are registered: sets `autoReconnect` when the argument
is `true`, clears `apiSessionKey`, `lastActionId` and
`waitingForAuthenticationQueryActionResponse` (the latter to `undefined`),
creates a fresh, not-yet-open websocket, and emits `connecting`. -/
def connect (st0 : DeviceState) (autoReconnect : Bool) : StepResult :=
  let st1 := if autoReconnect = true then { st0 with autoReconnect := true } else st0
  let st2 := { st1 with
               apiSessionKey := none
               lastActionId := none
               waitingForAuthenticationQueryActionResponse := none
               websocket := some false }
  { state := st2, events := [Event.connecting], sent := [], warnings := [] }

/-- Embedding of `sendFrame(frameJson)`: sends the stringified frame and
emits `outgoingmessage` when the websocket is defined and open; otherwise
warns and sends nothing. -/
def sendFrame (st : DeviceState) (frameType : String) : StepResult :=
  if st.websocket = some true then
    { state := st, events := [Event.outgoingmessage],
      sent := [SentItem.plain frameType], warnings := [] }
  else
    { state := st, events := [], sent := [],
      warnings := ["The websocket client is not connected"] }

/-- Embedding of `sendEncryptedFrame(unencryptedPayload)`: when the
websocket is open and `apiSessionKey` is defined, builds the encrypted
frame via `remootioApiConstructEncrypedFrame` over
`JSON.stringify(unencryptedPayload)`, sends it and emits
`outgoingmessage`; with no session key it warns; with no open websocket it
warns. -/
def sendEncryptedFrame {B : Type} (E : DeviceEnv B) (st : DeviceState)
    (unencryptedPayload : RemootioAction) : StepResult :=
  if st.websocket = some true then
    match st.apiSessionKey with
    | some _ =>
      let encryptedFrame :=
        remootioApiConstructEncrypedFrame E.crypto
          (E.jsonStringifyAction unencryptedPayload)
          st.apiSecretKey st.apiAuthKey st.apiSessionKey E.ivRandom
      { state := st, events := [Event.outgoingmessage],
        sent := [SentItem.encrypted encryptedFrame unencryptedPayload], warnings := [] }
    | none =>
      { state := st, events := [], sent := [],
        warnings := ["Authenticate session first to send this message"] }
  else
    { state := st, events := [], sent := [],
      warnings := ["The websocket client is not connected"] }

/-- Embedding of `authenticate()`: sends a plaintext `AUTH` frame. -/
def authenticate (st : DeviceState) : StepResult :=
  sendFrame st "AUTH"

/-- Embedding of `sendHello()`: sends a plaintext `HELLO` frame. -/
def sendHello (st : DeviceState) : StepResult :=
  sendFrame st "HELLO"

/-- Embedding of `sendPing()`: sends a plaintext `PING` frame. -/
def sendPing (st : DeviceState) : StepResult :=
  sendFrame st "PING"

/-- Embedding of `sendQuery()`: requires `lastActionId` to be defined and
sends a `QUERY` action with id `(lastActionId + 1) % 0x7FFFFFFF`;
otherwise warns. -/
def sendQuery {B : Type} (E : DeviceEnv B) (st : DeviceState) : StepResult :=
  match st.lastActionId with
  | some lastId =>
    sendEncryptedFrame E st { type := "QUERY", id := (lastId + 1) % 0x7fffffff }
  | none =>
    { state := st, events := [], sent := [],
      warnings := ["Unexpected error - lastActionId is undefined"] }

/-- Embedding of `sendTrigger()`. -/
def sendTrigger {B : Type} (E : DeviceEnv B) (st : DeviceState) : StepResult :=
  match st.lastActionId with
  | some lastId =>
    sendEncryptedFrame E st { type := "TRIGGER", id := (lastId + 1) % 0x7fffffff }
  | none =>
    { state := st, events := [], sent := [],
      warnings := ["Unexpected error - lastActionId is undefined"] }

/-- Embedding of `sendTriggerSecondary()`. -/
def sendTriggerSecondary {B : Type} (E : DeviceEnv B) (st : DeviceState) : StepResult :=
  match st.lastActionId with
  | some lastId =>
    sendEncryptedFrame E st { type := "TRIGGER_SECONDARY", id := (lastId + 1) % 0x7fffffff }
  | none =>
    { state := st, events := [], sent := [],
      warnings := ["Unexpected error - lastActionId is undefined"] }

/-- Embedding of `sendOpen()`. -/
def sendOpen {B : Type} (E : DeviceEnv B) (st : DeviceState) : StepResult :=
  match st.lastActionId with
  | some lastId =>
    sendEncryptedFrame E st { type := "OPEN", id := (lastId + 1) % 0x7fffffff }
  | none =>
    { state := st, events := [], sent := [],
      warnings := ["Unexpected error - lastActionId is undefined"] }

/-- Embedding of `sendClose()`. -/
def sendClose {B : Type} (E : DeviceEnv B) (st : DeviceState) : StepResult :=
  match st.lastActionId with
  | some lastId =>
    sendEncryptedFrame E st { type := "CLOSE", id := (lastId + 1) % 0x7fffffff }
  | none =>
    { state := st, events := [], sent := [],
      warnings := ["Unexpected error - lastActionId is undefined"] }

/-- Embedding of `sendRestart()`. -/
def sendRestart {B : Type} (E : DeviceEnv B) (st : DeviceState) : StepResult :=
  match st.lastActionId with
  | some lastId =>
    sendEncryptedFrame E st { type := "RESTART", id := (lastId + 1) % 0x7fffffff }
  | none =>
    { state := st, events := [], sent := [],
      warnings := ["Unexpected error - lastActionId is undefined"] }

/-- Embedding of the websocket `message` handler registered in
`connect` (`src/src/index.ts`, the `on('message', ...)` callback), for a
message whose `JSON.parse` succeeded and produced `rcvMsgJson`.
Following the source: any message clears a pending ping-reply timeout;
an `ENCRYPTED` frame is decrypted and `incomingmessage` is emitted with
the decrypted payload; on a defined payload the challenge branch stores
the session key and initial action id, sets the waiting flag and sends a
`QUERY`, then the response branch advances `lastActionId` (only when the
response id is numerically greater, or is `0` while `lastActionId` is
`0x7FFFFFFF`) and emits `authenticated` for a `QUERY` response while the
waiting flag is `true`; on an undefined payload an `error` is emitted;
a non-`ENCRYPTED` frame only emits `incomingmessage`. -/
def onMessage {B : Type} (E : DeviceEnv B) (st0 : DeviceState)
    (rcvMsgJson : Frame) : StepResult :=
  let st := if st0.pingReplyTimeoutHandle then
              { st0 with pingReplyTimeoutHandle := false }
            else st0
  if rcvMsgJson.type = "ENCRYPTED" then
    let decryptedPayload :=
      remootioApiDecryptEncrypedFrame E.crypto (some rcvMsgJson)
        st.apiSecretKey st.apiAuthKey st.apiSessionKey
    match decryptedPayload with
    | some dp =>
      let afterChallenge : StepResult :=
        match dp.challenge with
        | some ch =>
          let stc := { st with
                       apiSessionKey := some ch.sessionKey
                       lastActionId := some ch.initialActionId
                       waitingForAuthenticationQueryActionResponse := some true }
          sendQuery E stc
        | none => { state := st, events := [], sent := [], warnings := [] }
      let st1 := afterChallenge.state
      let afterResponse : StepResult :=
        match dp.response with
        | some resp =>
          match resp.id with
          | some responseId =>
            let st2 : DeviceState :=
              match st1.lastActionId with
              | some lastId =>
                if lastId < responseId ∨ (responseId = 0 ∧ lastId = 0x7fffffff) then
                  { st1 with lastActionId := some responseId }
                else st1
              | none => st1
            let warns2 : List String :=
              match st1.lastActionId with
              | some _ => []
              | none => ["Unexpected error - lastActionId is undefined"]
            if resp.type = "QUERY"
                ∧ st2.waitingForAuthenticationQueryActionResponse = some true then
              { state := { st2 with
                           waitingForAuthenticationQueryActionResponse := some false }
                events := [Event.authenticated], sent := [], warnings := warns2 }
            else
              { state := st2, events := [], sent := [], warnings := warns2 }
          | none => { state := st1, events := [], sent := [], warnings := [] }
        | none => { state := st1, events := [], sent := [], warnings := [] }
      { state := afterResponse.state
        events := [Event.incomingmessage] ++ afterChallenge.events ++ afterResponse.events
        sent := afterChallenge.sent ++ afterResponse.sent
        warnings := afterChallenge.warnings ++ afterResponse.warnings }
    | none =>
      { state := st, events := [Event.incomingmessage, Event.error],
        sent := [], warnings := [] }
  else
    { state := st, events := [Event.incomingmessage], sent := [], warnings := [] }

/-- Embedding of the websocket `close` handler registered in `connect`
(`src/src/index.ts`, the `on('close', ...)` callback).  When the handler
runs, the transport has closed, so the websocket is no longer open.  The
handler clears the ping-message interval (and nothing else — in
particular it does not touch `pingReplyTimeoutHandle`), re-invokes
`connect` when `autoReconnect` is enabled, and emits `disconnect`. -/
def onClose (st0 : DeviceState) : StepResult :=
  let st1 := { st0 with websocket := some false }
  let st2 := if st1.sendPingMessageIntervalHandle then
               { st1 with sendPingMessageIntervalHandle := false }
             else st1
  if st2.autoReconnect = true then
    let r := connect st2 st2.autoReconnect
    { state := r.state, events := r.events ++ [Event.disconnect],
      sent := r.sent, warnings := r.warnings }
  else
    { state := st2, events := [Event.disconnect], sent := [], warnings := [] }

/-- Embedding of the `isConnected` getter: the websocket is defined and
open. -/
def isConnected (st : DeviceState) : Bool :=
  st.websocket = some true

/-- Embedding of the `theLastActionId` getter. -/
def theLastActionId (st : DeviceState) : Option Nat :=
  st.lastActionId

/-- Embedding of the `isAuthenticated` getter: the websocket is defined
and open, and `apiSessionKey` is defined. -/
def isAuthenticated (st : DeviceState) : Bool :=
  if st.websocket = some true then
    st.apiSessionKey.isSome
  else
    false

/-- The ids of the actions a step sent (projection used by the theorems
about action-sending operations). -/
def sentActionIds (r : StepResult) : List Nat :=
  r.sent.filterMap fun
    | SentItem.encrypted _ a => some a.id
    | SentItem.plain _ => none

/-! Concrete crypto instances, used to evaluate the parameterized
definitions on explicit inputs.  In these instances word arrays are plain
strings, the codecs are identities, the block cipher passes the plaintext
through and the MAC is the constant string `"MAC"` — the algebraic
hypotheses of the theorems below (codec and cipher inversion) hold for
them definitionally. -/

/-- Concrete `CryptoModel` whose payload type is `String` and whose
`JSON.parse` is total. -/
def strCrypto : CryptoModel String String :=
  { hexParse := fun s => s
    base64Parse := fun s => s
    base64Stringify := fun b => b
    latin1Parse := fun s => s
    latin1Stringify := fun b => b
    hmacSHA256 := fun _ _ => "MAC"
    aesEncryptCBC := fun p _ _ => p
    aesDecryptCBC := fun c _ _ => c
    jsonParse := fun s => some s
    jsonStringifyData := fun i p => i ++ "|" ++ p }

/-- Decoder of concrete decrypted payload strings into the payload shapes
the message handler inspects: a challenge carrying session key
`"SESSIONKEY"` and initial action id 100, and a handful of action
responses. -/
def testParse : String → Option DecryptedPayload
  | "CHALLENGE100" => some { challenge := some { sessionKey := "SESSIONKEY", initialActionId := 100 }
                             response := none }
  | "RESP0" => some { challenge := none, response := some { type := "TRIGGER", id := some 0 } }
  | "QRESP6" => some { challenge := none, response := some { type := "QUERY", id := some 6 } }
  | "QRESP101" => some { challenge := none, response := some { type := "QUERY", id := some 101 } }
  | _ => none

/-- Concrete `CryptoModel` producing `DecryptedPayload` values, for
evaluating the session state machine. -/
def testCrypto : CryptoModel String DecryptedPayload :=
  { hexParse := fun s => s
    base64Parse := fun s => s
    base64Stringify := fun b => b
    latin1Parse := fun s => s
    latin1Stringify := fun b => b
    hmacSHA256 := fun _ _ => "MAC"
    aesEncryptCBC := fun p _ _ => p
    aesDecryptCBC := fun c _ _ => c
    jsonParse := testParse
    jsonStringifyData := fun i p => i ++ "|" ++ p }

/-- Concrete device environment built on `testCrypto`. -/
def testEnv : DeviceEnv String :=
  { crypto := testCrypto
    jsonStringifyAction := fun a => a.type ++ toString a.id
    ivRandom := "IV" }

/-- A well-formed `ENCRYPTED` frame whose MAC matches under `testCrypto`
and whose payload decodes (via `testParse`) to the given string's
payload. -/
def testFrame (payloadStr : String) : Frame :=
  { type := "ENCRYPTED"
    data := some { payload := some payloadStr, iv := some "IV" }
    mac := some "MAC" }

/-- The device state of the authentication scenario right before the
challenge arrives: `connect(false)` ran (session data cleared, waiting
flag `undefined`), the transport opened (websocket open, ping interval
armed) and `authenticate()` sent the `AUTH` frame (which changes no
fields). -/
def scenarioAuthState : DeviceState :=
  { apiSecretKey := "SECRET"
    apiAuthKey := "AUTH"
    apiSessionKey := none
    lastActionId := none
    autoReconnect := false
    sendPingMessageIntervalHandle := true
    pingReplyTimeoutHandle := false
    waitingForAuthenticationQueryActionResponse := none
    websocket := some true }

/-- An `ENCRYPTED` frame with a corrupted MAC. -/
def badMacFrame (payloadStr : String) : Frame :=
  { type := "ENCRYPTED"
    data := some { payload := some payloadStr, iv := some "IV" }
    mac := some "CORRUPTED" }

/-- A concrete device state: connected websocket, authenticated session
with session key `"SK"` and the given `lastActionId`, no pending timers,
not waiting for the authentication query response. -/
def connState (lastActionId : Option Nat) : DeviceState :=
  { apiSecretKey := "SECRET"
    apiAuthKey := "AUTH"
    apiSessionKey := some "SK"
    lastActionId := lastActionId
    autoReconnect := false
    sendPingMessageIntervalHandle := true
    pingReplyTimeoutHandle := false
    waitingForAuthenticationQueryActionResponse := some false
    websocket := some true }

end Remootio

namespace Remootio

/-- C7: `remootioApiConstructEncrypedFrame` called with an undefined
session key returns `undefined` for every payload, every pair of keys and
every IV — a defined "no session key" failure, with no frame produced
(and, being a total Lean function over an arbitrary crypto model, no
exception and no cryptographic computation). -/
theorem construct_without_session_key_fails {B P : Type} (C : CryptoModel B P)
    (unencryptedPayload ApiSecretKey ApiAuthKey : String) (ivRandom : B) :
    remootioApiConstructEncrypedFrame C unencryptedPayload ApiSecretKey ApiAuthKey
      none ivRandom = none := rfl

/-- C9: `remootioApiDecryptEncrypedFrame` is total on malformed input:
for a missing frame, a frame whose `type` is not `"ENCRYPTED"`, or a
frame lacking the `data`, `mac`, `data.payload` or `data.iv` field, it
returns `undefined`.  The statement holds for every crypto model `C`, so
the result is independent of every cryptographic primitive — no
cryptographic operation influences (or is needed for) the outcome. -/
theorem decrypt_malformed_input_returns_none {B P : Type} (C : CryptoModel B P)
    (frame : Option Frame) (ApiSecretKey ApiAuthKey : String)
    (ApiSessionKey : Option String)
    (hbad : frame = none
      ∨ ∃ f, frame = some f ∧
          (f.type ≠ "ENCRYPTED" ∨ f.data = none ∨ f.mac = none
            ∨ f.data.bind FrameData.payload = none
            ∨ f.data.bind FrameData.iv = none)) :
    remootioApiDecryptEncrypedFrame C frame ApiSecretKey ApiAuthKey ApiSessionKey
      = none := by
  rcases hbad with rfl | ⟨f, rfl, hf⟩
  · rfl
  · show (if _ then _ else _) = _
    rw [if_pos]
    rcases hf with h | h | h | h | h
    · exact Or.inl h
    · exact Or.inr (Or.inl h)
    · rcases hm : f.mac with _ | m
      · exact Or.inr (Or.inr (Or.inl (by simp [jsStrFalsy, hm])))
      · exact absurd (hm ▸ h) (by simp)
    · exact Or.inr (Or.inr (Or.inr (Or.inl (by simp [jsStrFalsy, h]))))
    · exact Or.inr (Or.inr (Or.inr (Or.inr (by simp [jsStrFalsy, h]))))

/-- C9 witness: a `PING` frame (no `data`, no `mac`) decrypts to
`undefined` under the concrete crypto instance. -/
theorem decrypt_malformed_input_returns_none_witness :
    ((some (Frame.mk "PING" none none) : Option Frame) = none
      ∨ ∃ f, (some (Frame.mk "PING" none none) : Option Frame) = some f ∧
          (f.type ≠ "ENCRYPTED" ∨ f.data = none ∨ f.mac = none
            ∨ f.data.bind FrameData.payload = none
            ∨ f.data.bind FrameData.iv = none))
    ∧ remootioApiDecryptEncrypedFrame testCrypto (some (Frame.mk "PING" none none))
        "SECRET" "AUTH" none = none := by
  refine ⟨Or.inr ⟨Frame.mk "PING" none none, rfl, Or.inl (by decide)⟩, ?_⟩
  exact decrypt_malformed_input_returns_none testCrypto _ "SECRET" "AUTH" none
    (Or.inr ⟨Frame.mk "PING" none none, rfl, Or.inl (by decide)⟩)

/-- C3: on a well-formed `ENCRYPTED` frame, `remootioApiDecryptEncrypedFrame`
returns a payload only when the HMAC-SHA256 recomputed over the serialized
`{iv, payload}` data equals the frame's declared `mac` AND the decrypted
bytes parse as JSON; a MAC mismatch yields `undefined`, and a valid MAC
whose plaintext fails to parse also yields `undefined` — the two failures
collapse to the same result. -/
theorem decrypt_payload_iff_mac_matches_and_json_parses {B P : Type}
    (C : CryptoModel B P) (pl iv m ApiSecretKey ApiAuthKey : String)
    (ApiSessionKey : Option String)
    (hm : m ≠ "") (hpl : pl ≠ "") (hiv : iv ≠ "") :
    let f : Frame := { type := "ENCRYPTED"
                       data := some { payload := some pl, iv := some iv }
                       mac := some m }
    let key : B := match ApiSessionKey with
      | none => C.hexParse ApiSecretKey
      | some sk => C.base64Parse sk
    let calcMac := C.base64Stringify
      (C.hmacSHA256 (C.jsonStringifyData iv pl) (C.hexParse ApiAuthKey))
    let plain := C.jsonParse
      (C.latin1Stringify (C.aesDecryptCBC (C.base64Parse pl) key (C.base64Parse iv)))
    (∀ p, remootioApiDecryptEncrypedFrame C (some f) ApiSecretKey ApiAuthKey ApiSessionKey
        = some p → calcMac = m ∧ plain = some p)
    ∧ (calcMac ≠ m →
        remootioApiDecryptEncrypedFrame C (some f) ApiSecretKey ApiAuthKey ApiSessionKey = none)
    ∧ (calcMac = m → plain = none →
        remootioApiDecryptEncrypedFrame C (some f) ApiSecretKey ApiAuthKey ApiSessionKey = none) := by
  intro f key calcMac plain
  have hguard : ¬ (f.type ≠ "ENCRYPTED" ∨ f.data = none ∨ jsStrFalsy f.mac
      ∨ jsStrFalsy (f.data.bind FrameData.payload)
      ∨ jsStrFalsy (f.data.bind FrameData.iv)) := by
    simp [f, jsStrFalsy, hm, hpl, hiv]
  have hval : remootioApiDecryptEncrypedFrame C (some f) ApiSecretKey ApiAuthKey ApiSessionKey
      = if (calcMac == m) = true then plain else none := by
    show (if _ then _ else _) = _
    rw [if_neg hguard]
  by_cases hmac : calcMac = m
  · refine ⟨?_, fun h => absurd hmac h, fun _ hplain => ?_⟩
    · intro p hp
      rw [hval, if_pos (by simp [hmac])] at hp
      exact ⟨hmac, hp⟩
    · rw [hval, if_pos (by simp [hmac]), hplain]
  · refine ⟨?_, fun _ => ?_, fun h => absurd h hmac⟩
    · intro p hp
      rw [hval, if_neg (by simp [hmac])] at hp
      exact absurd hp (by simp)
    · rw [hval, if_neg (by simp [hmac])]

/-- C3 witness: under the concrete crypto instance, a frame whose MAC is
`"CORRUPTED"` (computed MAC is `"MAC"`) decrypts to `undefined`, and a
frame with the correct MAC but a plaintext `testParse` rejects also
decrypts to `undefined`. -/
theorem decrypt_payload_iff_mac_matches_and_json_parses_witness :
    ("MAC" : String) ≠ "CORRUPTED" ∧ ("CORRUPTED" : String) ≠ "" ∧ ("NOTJSON" : String) ≠ ""
    ∧ ("IV" : String) ≠ ""
    ∧ remootioApiDecryptEncrypedFrame testCrypto (some (badMacFrame "RESP0"))
        "SECRET" "AUTH" (some "SK") = none
    ∧ remootioApiDecryptEncrypedFrame testCrypto (some (testFrame "NOTJSON"))
        "SECRET" "AUTH" (some "SK") = none := by
  refine ⟨by decide, by decide, by decide, by decide, ?_, ?_⟩
  · exact (decrypt_payload_iff_mac_matches_and_json_parses testCrypto "RESP0" "IV"
      "CORRUPTED" "SECRET" "AUTH" (some "SK") (by decide) (by decide) (by decide)).2.1
      (by decide)
  · exact (decrypt_payload_iff_mac_matches_and_json_parses testCrypto "NOTJSON" "IV"
      "MAC" "SECRET" "AUTH" (some "SK") (by decide) (by decide) (by decide)).2.2
      (by decide) (by decide)

/-- C1: decrypting the frame produced by `remootioApiConstructEncrypedFrame`
with the same session key and auth key returns the original payload: under
the algebraic facts about the library primitives (base64 decoding inverts
base64 encoding, AES-CBC decryption under the same key and IV inverts
encryption, latin1 decoding inverts latin1 encoding on the payload string,
`JSON.parse` recovers the payload value from the payload string, and the
three base64-encoded fields are nonempty, as 128-bit IVs, PKCS#7
ciphertexts and 256-bit MACs always are), the recomputed MAC matches and
the ciphertext decrypts back to the input. -/
theorem construct_decrypt_roundtrip {B P : Type} (C : CryptoModel B P)
    (payloadStr ApiSecretKey ApiAuthKey ApiSessionKey : String) (ivRandom : B)
    (payloadValue : P)
    (hB64 : ∀ b, C.base64Parse (C.base64Stringify b) = b)
    (hAES : ∀ p k i, C.aesDecryptCBC (C.aesEncryptCBC p k i) k i = p)
    (hLatin : C.latin1Stringify (C.latin1Parse payloadStr) = payloadStr)
    (hJson : C.jsonParse payloadStr = some payloadValue)
    (hivNE : C.base64Stringify ivRandom ≠ "")
    (hctNE : C.base64Stringify (C.aesEncryptCBC (C.latin1Parse payloadStr)
        (C.base64Parse ApiSessionKey) ivRandom) ≠ "")
    (hmacNE : C.base64Stringify (C.hmacSHA256
        (C.jsonStringifyData (C.base64Stringify ivRandom)
          (C.base64Stringify (C.aesEncryptCBC (C.latin1Parse payloadStr)
            (C.base64Parse ApiSessionKey) ivRandom)))
        (C.hexParse ApiAuthKey)) ≠ "") :
    remootioApiDecryptEncrypedFrame C
      (remootioApiConstructEncrypedFrame C payloadStr ApiSecretKey ApiAuthKey
        (some ApiSessionKey) ivRandom)
      ApiSecretKey ApiAuthKey (some ApiSessionKey) = some payloadValue := by
  show (if _ then _ else _) = _
  rw [if_neg (by simp [remootioApiConstructEncrypedFrame, jsStrFalsy, hivNE, hctNE, hmacNE])]
  simp only [remootioApiConstructEncrypedFrame]
  rw [if_pos (by simp)]
  rw [hB64, hB64, hAES, hLatin, hJson]

/-- C1 witness: under the concrete crypto instance (for which the codec
and cipher inversion hypotheses hold definitionally), the payload string
`"PAYLOAD"` survives the construct/decrypt round trip. -/
theorem construct_decrypt_roundtrip_witness :
    strCrypto.jsonParse "PAYLOAD" = some "PAYLOAD"
    ∧ remootioApiDecryptEncrypedFrame strCrypto
        (remootioApiConstructEncrypedFrame strCrypto "PAYLOAD" "SECRET" "AUTH"
          (some "SK") "IV")
        "SECRET" "AUTH" (some "SK") = some "PAYLOAD" := by
  refine ⟨rfl, ?_⟩
  exact construct_decrypt_roundtrip strCrypto "PAYLOAD" "SECRET" "AUTH" "SK" "IV" "PAYLOAD"
    (fun _ => rfl) (fun _ _ _ => rfl) rfl rfl (by decide) (by decide) (by decide)

/-- Helper: full description of the message handler on an `ENCRYPTED`
frame whose decrypted payload is a challenge (and carries no response
object): the session key, action counter and waiting flag are overwritten
and `sendQuery` runs on the updated state. -/
theorem onMessage_challenge_only {B : Type} (E : DeviceEnv B) (st : DeviceState)
    (f : Frame) (ch : ChallengePayload)
    (hty : f.type = "ENCRYPTED")
    (hdec : remootioApiDecryptEncrypedFrame E.crypto (some f)
      st.apiSecretKey st.apiAuthKey st.apiSessionKey
      = some { challenge := some ch, response := none }) :
    onMessage E st f =
      { state := { st with
          apiSessionKey := some ch.sessionKey
          lastActionId := some ch.initialActionId
          waitingForAuthenticationQueryActionResponse := some true
          pingReplyTimeoutHandle := false }
        events := [Event.incomingmessage]
          ++ (if st.websocket = some true then [Event.outgoingmessage] else [])
        sent := if st.websocket = some true then
            [SentItem.encrypted
              (remootioApiConstructEncrypedFrame E.crypto
                (E.jsonStringifyAction
                  { type := "QUERY", id := (ch.initialActionId + 1) % 0x7fffffff })
                st.apiSecretKey st.apiAuthKey (some ch.sessionKey) E.ivRandom)
              { type := "QUERY", id := (ch.initialActionId + 1) % 0x7fffffff }]
          else []
        warnings := if st.websocket = some true then []
          else ["The websocket client is not connected"] } := by
  by_cases hws : st.websocket = some true <;>
    cases hprt : st.pingReplyTimeoutHandle <;>
    (cases st; simp_all [onMessage, sendQuery, sendEncryptedFrame])

/-- Helper: full description of the message handler on an `ENCRYPTED`
frame whose decrypted payload is an action response with a defined id
(and no challenge object), with `lastActionId` defined: the counter
advances exactly when the response id is numerically greater or is `0`
while the counter is `0x7FFFFFFF`, and `authenticated` is emitted exactly
when the response type is `QUERY` while the waiting flag is `true`. -/
theorem onMessage_response_only {B : Type} (E : DeviceEnv B) (st : DeviceState)
    (f : Frame) (resp : ResponsePayload) (rid v : Nat)
    (hty : f.type = "ENCRYPTED")
    (hdec : remootioApiDecryptEncrypedFrame E.crypto (some f)
      st.apiSecretKey st.apiAuthKey st.apiSessionKey
      = some { challenge := none, response := some resp })
    (hid : resp.id = some rid)
    (hv : st.lastActionId = some v) :
    onMessage E st f =
      { state := { st with
          lastActionId :=
            if v < rid ∨ (rid = 0 ∧ v = 0x7fffffff) then some rid else some v
          waitingForAuthenticationQueryActionResponse :=
            if resp.type = "QUERY"
                ∧ st.waitingForAuthenticationQueryActionResponse = some true then
              some false
            else st.waitingForAuthenticationQueryActionResponse
          pingReplyTimeoutHandle := false }
        events := [Event.incomingmessage]
          ++ (if resp.type = "QUERY"
                ∧ st.waitingForAuthenticationQueryActionResponse = some true then
              [Event.authenticated]
            else [])
        sent := []
        warnings := [] } := by
  obtain ⟨rt, rido⟩ := resp
  simp only at hid
  subst hid
  by_cases hupd : v < rid ∨ (rid = 0 ∧ v = 0x7fffffff)
  · by_cases hq : rt = "QUERY"
        ∧ st.waitingForAuthenticationQueryActionResponse = some true
    · cases hprt : st.pingReplyTimeoutHandle <;>
        (simp [onMessage, hty, hdec, hv, hprt, eq_true hupd, eq_true hq];
         try rw [← hv, ← hprt])
    · cases hprt : st.pingReplyTimeoutHandle <;>
        (simp [onMessage, hty, hdec, hv, hprt, eq_true hupd, eq_false hq];
         try rw [← hv, ← hprt])
  · by_cases hq : rt = "QUERY"
        ∧ st.waitingForAuthenticationQueryActionResponse = some true
    · cases hprt : st.pingReplyTimeoutHandle <;>
        (simp [onMessage, hty, hdec, hv, hprt, eq_false hupd, eq_true hq];
         try rw [← hv, ← hprt])
    · cases hprt : st.pingReplyTimeoutHandle <;>
        (simp [onMessage, hty, hdec, hv, hprt, eq_false hupd, eq_false hq];
         try rw [← hv, ← hprt])

/-- C2: the message handler's wraparound check compares `lastActionId`
against `0x7FFFFFFF`, not `0x7FFFFFFE` as the specification states: at the
concrete state `lastActionId = 0x7FFFFFFE` with an incoming response id
`0`, the handler leaves the counter at `0x7FFFFFFE` instead of wrapping it
to `0`.  Moreover action ids are generated as `(lastActionId + 1) %
0x7FFFFFFF`, so the value `0x7FFFFFFF` the code tests for can never be
produced by the generator — the code's wraparound branch is unreachable
for self-generated ids and the counter wedges at the boundary. -/
theorem lastActionId_wraparound_boundary_divergence :
    (onMessage testEnv (connState (some 0x7ffffffe)) (testFrame "RESP0")).state.lastActionId
      = some 0x7ffffffe
    ∧ (∀ lastId : Nat, (lastId + 1) % 0x7fffffff ≠ 0x7fffffff) := by
  constructor
  · decide
  · intro lastId
    exact Nat.ne_of_lt (Nat.mod_lt _ (by norm_num))

/-- C4 counterexample: in the authentication scenario (connected
websocket, session reset by `connect`, `authenticate()` sent, then a
challenge with `initialActionId = 100` delivered), `lastActionId` becomes
`100` and a `QUERY` with id `101` is auto-sent as the claim states, but
the `isAuthenticated` flag is already `true` at this point — it is
derived from "websocket open and `apiSessionKey` defined", and the
challenge handler has just stored the session key — contradicting the
claim that the authenticated flag is still false until the matching
`ActionResponse` arrives. -/
theorem auth_challenge_scenario_counterexample :
    (onMessage testEnv scenarioAuthState (testFrame "CHALLENGE100")).state.lastActionId
      = some 100
    ∧ sentActionIds (onMessage testEnv scenarioAuthState (testFrame "CHALLENGE100")) = [101]
    ∧ isAuthenticated (onMessage testEnv scenarioAuthState (testFrame "CHALLENGE100")).state
      = true := by
  decide

/-- C4 (amended): after a connected session processes a challenge
carrying a session key and `initialActionId = 100`, `lastActionId` equals
`100`, a `QUERY` action is auto-sent with id `101`, and the
`authenticated` event has not been emitted — the waiting flag is set and
the event fires only when the matching `QUERY` response arrives; the
`isAuthenticated` property, however, already reports `true`, because it is
derived from the connection being open and the session key being
stored. -/
theorem auth_challenge_scenario_amended {B : Type} (E : DeviceEnv B)
    (st : DeviceState) (f : Frame) (k : String)
    (hws : st.websocket = some true)
    (hty : f.type = "ENCRYPTED")
    (hdec : remootioApiDecryptEncrypedFrame E.crypto (some f)
      st.apiSecretKey st.apiAuthKey st.apiSessionKey
      = some { challenge := some { sessionKey := k, initialActionId := 100 }
               response := none }) :
    (onMessage E st f).state.lastActionId = some 100
    ∧ sentActionIds (onMessage E st f) = [101]
    ∧ (onMessage E st f).state.waitingForAuthenticationQueryActionResponse = some true
    ∧ Event.authenticated ∉ (onMessage E st f).events
    ∧ isAuthenticated (onMessage E st f).state = true := by
  rw [onMessage_challenge_only E st f { sessionKey := k, initialActionId := 100 } hty hdec]
  simp [sentActionIds, isAuthenticated, hws]

/-- C4 witness: the amended statement evaluated in the concrete
scenario. -/
theorem auth_challenge_scenario_amended_witness :
    scenarioAuthState.websocket = some true
    ∧ remootioApiDecryptEncrypedFrame testCrypto (some (testFrame "CHALLENGE100"))
        scenarioAuthState.apiSecretKey scenarioAuthState.apiAuthKey
        scenarioAuthState.apiSessionKey
      = some { challenge := some { sessionKey := "SESSIONKEY", initialActionId := 100 }
               response := none }
    ∧ sentActionIds (onMessage testEnv scenarioAuthState (testFrame "CHALLENGE100")) = [101]
    ∧ Event.authenticated ∉ (onMessage testEnv scenarioAuthState (testFrame "CHALLENGE100")).events := by
  refine ⟨rfl, by decide, ?_, ?_⟩
  · exact (auth_challenge_scenario_amended testEnv scenarioAuthState
      (testFrame "CHALLENGE100") "SESSIONKEY" rfl rfl (by decide)).2.1
  · exact (auth_challenge_scenario_amended testEnv scenarioAuthState
      (testFrame "CHALLENGE100") "SESSIONKEY" rfl rfl (by decide)).2.2.2.1

/-- C6: when an inbound `ENCRYPTED` frame fails decrypt/verify, the
handler emits `incomingmessage` (with an undefined payload) and exactly
one `error` event, the session state — `apiSessionKey`, `lastActionId`,
the waiting flag, and hence the `isAuthenticated` property — is left
unchanged, nothing is sent, and the connection is not torn down (no
`disconnect` event, websocket field unchanged). -/
theorem decrypt_failure_preserves_session {B : Type} (E : DeviceEnv B)
    (st : DeviceState) (f : Frame)
    (hty : f.type = "ENCRYPTED")
    (hdec : remootioApiDecryptEncrypedFrame E.crypto (some f)
      st.apiSecretKey st.apiAuthKey st.apiSessionKey = none) :
    (onMessage E st f).events = [Event.incomingmessage, Event.error]
    ∧ (onMessage E st f).events.count Event.error = 1
    ∧ (onMessage E st f).state.apiSessionKey = st.apiSessionKey
    ∧ (onMessage E st f).state.lastActionId = st.lastActionId
    ∧ (onMessage E st f).state.waitingForAuthenticationQueryActionResponse
        = st.waitingForAuthenticationQueryActionResponse
    ∧ isAuthenticated (onMessage E st f).state = isAuthenticated st
    ∧ (onMessage E st f).state.websocket = st.websocket
    ∧ (onMessage E st f).sent = []
    ∧ Event.disconnect ∉ (onMessage E st f).events := by
  cases hprt : st.pingReplyTimeoutHandle <;>
    simp [onMessage, hty, hdec, hprt, isAuthenticated]

/-- C6 witness: the corrupted-MAC frame under the concrete crypto
instance. -/
theorem decrypt_failure_preserves_session_witness :
    remootioApiDecryptEncrypedFrame testCrypto (some (badMacFrame "RESP0"))
      (connState (some 5)).apiSecretKey (connState (some 5)).apiAuthKey
      (connState (some 5)).apiSessionKey = none
    ∧ (onMessage testEnv (connState (some 5)) (badMacFrame "RESP0")).events
        = [Event.incomingmessage, Event.error]
    ∧ (onMessage testEnv (connState (some 5)) (badMacFrame "RESP0")).state.lastActionId
        = (connState (some 5)).lastActionId := by
  refine ⟨by decide, ?_, ?_⟩
  · exact (decrypt_failure_preserves_session testEnv (connState (some 5))
      (badMacFrame "RESP0") rfl (by decide)).1
  · exact (decrypt_failure_preserves_session testEnv (connState (some 5))
      (badMacFrame "RESP0") rfl (by decide)).2.2.2.1

/-- C8 counterexample: the `close` handler does not cancel a pending
ping-reply timeout — at a concrete state with `pingReplyTimeoutHandle`
set, the handle is still set after the handler runs, contradicting the
claim that both keepalive timers are cancelled. -/
theorem close_reply_timeout_counterexample :
    (onClose { connState (some 5) with
        pingReplyTimeoutHandle := true }).state.pingReplyTimeoutHandle = true := by
  decide

/-- C8 (amended): when the transport's `closed` callback fires, the
repeating ping-send interval timer is cancelled but a pending reply-timeout
timer is left untouched (it is cleared only by an inbound message or by
firing); exactly one `disconnect` event is raised; and the session
re-enters `Connecting` (re-invokes `connect`, clearing the session data
and emitting `connecting`) iff auto-reconnect is enabled, otherwise only
the interval timer and websocket state change. -/
theorem close_handler_amended (st : DeviceState) :
    (onClose st).state.sendPingMessageIntervalHandle = false
    ∧ (onClose st).state.pingReplyTimeoutHandle = st.pingReplyTimeoutHandle
    ∧ (onClose st).events.count Event.disconnect = 1
    ∧ (st.autoReconnect = true →
        (onClose st).events = [Event.connecting, Event.disconnect]
        ∧ (onClose st).state.apiSessionKey = none
        ∧ (onClose st).state.lastActionId = none
        ∧ (onClose st).state.waitingForAuthenticationQueryActionResponse = none
        ∧ (onClose st).state.websocket = some false
        ∧ (onClose st).state.autoReconnect = true)
    ∧ (st.autoReconnect = false →
        (onClose st).events = [Event.disconnect]
        ∧ (onClose st).state
            = { st with websocket := some false
                        sendPingMessageIntervalHandle := false }) := by
  cases har : st.autoReconnect <;> cases hsp : st.sendPingMessageIntervalHandle <;>
    (simp [onClose, connect, har, hsp]; try rw [← hsp])

/-- C8 witness: the amended statement evaluated at a concrete state with
auto-reconnect enabled and a pending reply timeout. -/
theorem close_handler_amended_witness :
    ({ connState (some 5) with
        pingReplyTimeoutHandle := true, autoReconnect := true } : DeviceState).autoReconnect
      = true
    ∧ (onClose { connState (some 5) with
        pingReplyTimeoutHandle := true, autoReconnect := true }).state.pingReplyTimeoutHandle
      = true
    ∧ (onClose { connState (some 5) with
        pingReplyTimeoutHandle := true, autoReconnect := true }).events
      = [Event.connecting, Event.disconnect] := by
  refine ⟨rfl, ?_, ?_⟩
  · exact (close_handler_amended { connState (some 5) with
      pingReplyTimeoutHandle := true, autoReconnect := true }).2.1
  · exact ((close_handler_amended { connState (some 5) with
      pingReplyTimeoutHandle := true, autoReconnect := true }).2.2.2.1 rfl).1

/-- C10: every received challenge — whatever the current session state —
overwrites `apiSessionKey` and `lastActionId` with the challenge's
`sessionKey` and `initialActionId`, sets the waiting-for-auth-query flag
to `true`, auto-sends a `QUERY` action with id
`(initialActionId + 1) % 0x7FFFFFFF`, and a subsequent `QUERY` response
(decrypted under the rotated session key) re-emits the `authenticated`
event. -/
theorem challenge_rotates_session {B : Type} (E : DeviceEnv B)
    (st : DeviceState) (f : Frame) (k : String) (a : Nat)
    (hws : st.websocket = some true)
    (hty : f.type = "ENCRYPTED")
    (hdec : remootioApiDecryptEncrypedFrame E.crypto (some f)
      st.apiSecretKey st.apiAuthKey st.apiSessionKey
      = some { challenge := some { sessionKey := k, initialActionId := a }
               response := none }) :
    (onMessage E st f).state.apiSessionKey = some k
    ∧ (onMessage E st f).state.lastActionId = some a
    ∧ (onMessage E st f).state.waitingForAuthenticationQueryActionResponse = some true
    ∧ (∃ ef, (onMessage E st f).sent
        = [SentItem.encrypted ef { type := "QUERY", id := (a + 1) % 0x7fffffff }])
    ∧ (∀ f2 : Frame, f2.type = "ENCRYPTED" → ∀ rid : Nat,
        remootioApiDecryptEncrypedFrame E.crypto (some f2)
            (onMessage E st f).state.apiSecretKey (onMessage E st f).state.apiAuthKey
            (onMessage E st f).state.apiSessionKey
          = some { challenge := none
                   response := some { type := "QUERY", id := some rid } } →
        Event.authenticated ∈ (onMessage E (onMessage E st f).state f2).events) := by
  rw [onMessage_challenge_only E st f { sessionKey := k, initialActionId := a } hty hdec]
  refine ⟨by simp, by simp, by simp, by simp [hws], ?_⟩
  intro f2 hty2 rid hdec2
  rw [onMessage_response_only E _ f2 { type := "QUERY", id := some rid } rid a hty2
    (by simpa using hdec2) rfl (by simp)]
  simp

/-- C10 witness: a mid-session state whose session key is `"SK"` receives
a fresh challenge; the session key rotates to `"SESSIONKEY"` and a later
`QUERY` response re-emits `authenticated`. -/
theorem challenge_rotates_session_witness :
    (connState (some 5)).apiSessionKey = some "SK"
    ∧ (onMessage testEnv (connState (some 5)) (testFrame "CHALLENGE100")).state.apiSessionKey
        = some "SESSIONKEY"
    ∧ Event.authenticated ∈ (onMessage testEnv
        (onMessage testEnv (connState (some 5)) (testFrame "CHALLENGE100")).state
        (testFrame "QRESP101")).events := by
  refine ⟨rfl, ?_, ?_⟩
  · exact (challenge_rotates_session testEnv (connState (some 5))
      (testFrame "CHALLENGE100") "SESSIONKEY" 100 rfl rfl (by decide)).1
  · exact (challenge_rotates_session testEnv (connState (some 5))
      (testFrame "CHALLENGE100") "SESSIONKEY" 100 rfl rfl (by decide)).2.2.2.2
      (testFrame "QRESP101") rfl 101 (by decide)

/-- C5 counterexample: sending does not advance `lastActionId` (only a
processed response does), so two consecutive `sendQuery` calls with no
intervening response both carry id `6` from the state whose counter is
`5` — consecutive sends do not strictly increment modulo `0x7FFFFFFF` as
the claim states. -/
theorem consecutive_send_ids_counterexample :
    sentActionIds (sendQuery testEnv (connState (some 5))) = [6]
    ∧ (sendQuery testEnv (connState (some 5))).state = connState (some 5)
    ∧ sentActionIds (sendQuery testEnv ((sendQuery testEnv (connState (some 5))).state)) = [6]
    ∧ ¬ ((6 : Nat) = (6 + 1) % 0x7fffffff) := by
  decide

/-- C5 (amended): every action-sending operation (`sendQuery`,
`sendTrigger`, `sendTriggerSecondary`, `sendOpen`, `sendClose`,
`sendRestart`) requires `lastActionId` to be defined — if it is undefined
the call sends nothing and reports a precondition failure.  If it is
defined (and the websocket is open with a session key present) the
operation sends one action payload with id
`(lastActionId + 1) % 0x7FFFFFFF` and leaves the state unchanged; ids
strictly increment modulo `0x7FFFFFFF` across consecutive sends only when
the matching response is processed between them: after the response
carrying the sent id `v + 1` is handled, the next send carries
`(v + 1 + 1) % 0x7FFFFFFF`. -/
theorem action_send_id_amended {B : Type} (E : DeviceEnv B) (st : DeviceState)
    (v : Nat) :
    (st.lastActionId = none →
        ((sendQuery E st).sent = [] ∧ (sendQuery E st).warnings ≠ [])
      ∧ ((sendTrigger E st).sent = [] ∧ (sendTrigger E st).warnings ≠ [])
      ∧ ((sendTriggerSecondary E st).sent = [] ∧ (sendTriggerSecondary E st).warnings ≠ [])
      ∧ ((sendOpen E st).sent = [] ∧ (sendOpen E st).warnings ≠ [])
      ∧ ((sendClose E st).sent = [] ∧ (sendClose E st).warnings ≠ [])
      ∧ ((sendRestart E st).sent = [] ∧ (sendRestart E st).warnings ≠ []))
    ∧ (st.lastActionId = some v → st.websocket = some true → st.apiSessionKey.isSome →
        sentActionIds (sendQuery E st) = [(v + 1) % 0x7fffffff]
      ∧ sentActionIds (sendTrigger E st) = [(v + 1) % 0x7fffffff]
      ∧ sentActionIds (sendTriggerSecondary E st) = [(v + 1) % 0x7fffffff]
      ∧ sentActionIds (sendOpen E st) = [(v + 1) % 0x7fffffff]
      ∧ sentActionIds (sendClose E st) = [(v + 1) % 0x7fffffff]
      ∧ sentActionIds (sendRestart E st) = [(v + 1) % 0x7fffffff]
      ∧ (sendQuery E st).state = st)
    ∧ (∀ f : Frame, st.lastActionId = some v → st.websocket = some true →
        st.apiSessionKey.isSome → v + 1 < 0x7fffffff → f.type = "ENCRYPTED" →
        ∀ t : String,
        remootioApiDecryptEncrypedFrame E.crypto (some f)
            st.apiSecretKey st.apiAuthKey st.apiSessionKey
          = some { challenge := none
                   response := some { type := t, id := some (v + 1) } } →
        sentActionIds (sendQuery E st) = [v + 1]
        ∧ sentActionIds
            (sendQuery E ((onMessage E ((sendQuery E st).state) f).state))
          = [(v + 1 + 1) % 0x7fffffff]) := by
  refine ⟨?_, ?_, ?_⟩
  · intro h
    simp [sendQuery, sendTrigger, sendTriggerSecondary, sendOpen, sendClose,
      sendRestart, h]
  · intro hv hws hsk
    obtain ⟨sk, hsk2⟩ := Option.isSome_iff_exists.mp hsk
    simp [sendQuery, sendTrigger, sendTriggerSecondary, sendOpen, sendClose,
      sendRestart, sendEncryptedFrame, sentActionIds, hv, hws, hsk2]
  · intro f hv hws hsk hlt hty2 t hdec2
    obtain ⟨sk, hsk2⟩ := Option.isSome_iff_exists.mp hsk
    have hstate : (sendQuery E st).state = st := by
      simp [sendQuery, sendEncryptedFrame, hv, hws, hsk2]
    constructor
    · simp [sendQuery, sendEncryptedFrame, sentActionIds, hv, hws, hsk2,
        Nat.mod_eq_of_lt hlt]
    · rw [hstate,
        onMessage_response_only E st f { type := t, id := some (v + 1) } (v + 1) v
          hty2 hdec2 rfl hv]
      have hless : v < v + 1 ∨ ((v + 1) = 0 ∧ v = 0x7fffffff) :=
        Or.inl (Nat.lt_succ_self v)
      simp [sendQuery, sendEncryptedFrame, sentActionIds, eq_true hless, hws, hsk2]

/-- C5 witness: the amended statement evaluated at concrete states — an
undefined counter refuses to send, a counter of `5` sends id `6`, and
after the response with id `6` is processed the next send carries `7`. -/
theorem action_send_id_amended_witness :
    (connState none).lastActionId = none
    ∧ (sendQuery testEnv (connState none)).sent = []
    ∧ (sendQuery testEnv (connState none)).warnings ≠ []
    ∧ sentActionIds (sendQuery testEnv (connState (some 5))) = [6]
    ∧ sentActionIds
        (sendQuery testEnv
          ((onMessage testEnv ((sendQuery testEnv (connState (some 5))).state)
            (testFrame "QRESP6")).state))
      = [7] := by
  refine ⟨rfl, ?_, ?_, ?_, ?_⟩
  · exact ((action_send_id_amended testEnv (connState none) 0).1 rfl).1.1
  · exact ((action_send_id_amended testEnv (connState none) 0).1 rfl).1.2
  · exact ((action_send_id_amended testEnv (connState (some 5)) 5).2.2
      (testFrame "QRESP6") rfl rfl (by decide) (by decide) rfl "QUERY" (by decide)).1
  · have h := ((action_send_id_amended testEnv (connState (some 5)) 5).2.2
      (testFrame "QRESP6") rfl rfl (by decide) (by decide) rfl "QUERY" (by decide)).2
    simpa using h

end Remootio
